import Mathlib

/-!
Shallow embedding of the activity pipeline of `src/dashboard_cloud.py`
(with the weekly aggregator variant of `src/dashboard.py`).

The pipeline normalizes raw activity records fetched from a fitness API
into rows (`activities_to_dataframe`), computes trailing-window statistics
(`compute_period_stats`), formats running pace (`format_pace`), aggregates
calories per ISO week (`compute_weekly_totals`), and classifies the
week-over-week running-load change (`delta_run_pct` / `risque_charge`).

Modelling conventions:
  * Python floats are modelled as `ℚ` (the numeric edge cases of the spec
    are about exact thresholds and exact factors, not float rounding).
  * Loosely-typed record fields that the code subjects to arithmetic
    (`distance`, `moving_time`, `kilojoules`) are modelled by `PyVal`:
    absent key, JSON null / Python `None`, a number, or a string.  This is
    what lets the embedding reproduce Python `or`-truthiness and the
    `TypeError` raised when arithmetic hits a string.
  * The `calories` field is only ever tested with `is None` and copied
    as-is, so it is modelled as `Option ℚ` (the Python `dict.get` collapses
    an absent key and an explicit null to `None`).
  * Timestamp fields are modelled as already-parsed epoch values
    (`Option ℤ`, seconds since 1970-01-01); `pd.to_datetime` string
    parsing is outside the model, `none` is pandas `NaT`.
  * `pd.Series.dt.isocalendar` is embedded as an explicit ISO-8601 week
    computation (`isocalendarDays`), via the standard civil-calendar /
    day-count conversions.
  * `DataFrame.groupby` with default `dropna=True` drops rows whose group
    keys are NA: `compute_weekly_totals` therefore filters out rows with
    a null `start_date` (their `iso_year` / `iso_week` are NA) before
    grouping, exactly as pandas does.
-/

/-- A loosely-typed raw-record field as the Python code sees it:
the key may be absent from the dict, may hold `None`, a number or a
string. -/
inductive PyVal where
  | absent : PyVal
  | null : PyVal
  | num : ℚ → PyVal
  | str : String → PyVal
deriving DecidableEq, Repr

/-- Python `a.get(key)`: an absent key reads as `None`. -/
def PyVal.get : PyVal → PyVal
  | .absent => .null
  | v => v

/-- Python `a.get(key, default)` with a numeric default `d`. -/
def PyVal.getD (v : PyVal) (d : ℚ) : PyVal :=
  match v with
  | .absent => .num d
  | v => v

/-- Python truthiness of a field value (`None`, `0` and `""` are falsy). -/
def PyVal.truthy : PyVal → Bool
  | .absent => false
  | .null => false
  | .num q => q != 0
  | .str s => s != ""

/-- Python `a or b` on field values. -/
def pyOrF (a b : PyVal) : PyVal :=
  if a.truthy then a else b

/-- The only Python exception the embedded code can raise: a `TypeError`
from applying `/` or `*` to a non-numeric operand. -/
inductive PyError where
  | typeError : PyError
deriving DecidableEq, Repr

/-- Numeric coercion as performed by Python arithmetic: a number is used
as-is, anything else (a string, `None`) raises `TypeError`. -/
def PyVal.asNum : PyVal → Except PyError ℚ
  | .num q => .ok q
  | _ => .error .typeError

/-- Python truthiness on an optional string (`None` and `""` are falsy). -/
def pyTruthyS : Option String → Bool
  | none => false
  | some s => s != ""

/-- Python `a or b` on two optional strings (used for
`a.get("sport_type") or a.get("type")`, line 99). -/
def pyOrStr (a b : Option String) : Option String :=
  if pyTruthyS a then a else b

/-- Python `a or b` on two optional timestamps (used for
`a.get("start_date_local") or a.get("start_date")`, line 114; a present
timestamp string is non-empty, hence truthy). -/
def pyOrT (a b : Option ℤ) : Option ℤ :=
  if a.isSome then a else b

/-- One raw activity record as returned by the external API: a
loosely-typed mapping, any field may be absent or null. -/
structure RawActivity where
  id : Option ℤ := none
  name : Option String := none
  sport_type : Option String := none
  type : Option String := none
  distance : PyVal := .absent
  moving_time : PyVal := .absent
  calories : Option ℚ := none
  kilojoules : PyVal := .absent
  start_date_local : Option ℤ := none
  start_date : Option ℤ := none
deriving DecidableEq, Repr

/-- One row of the list built by the loop of `activities_to_dataframe`
(lines 97-126), before the DataFrame-level post-processing. -/
structure PreRow where
  id : Option ℤ
  name : Option String
  sport : Option String
  distance_km : ℚ
  moving_time_min : ℚ
  start_date : Option ℤ
  calories : Option ℚ
deriving DecidableEq, Repr

/-- Embeds `(a.get(key, 0) or 0) / divisor` (lines 101-102): default an absent
key to `0`, replace a falsy value by `0`, then divide — a truthy
non-numeric value makes the division raise `TypeError`. -/
def numOr0 (v : PyVal) (divisor : ℚ) : Except PyError ℚ :=
  match (pyOrF (v.getD 0) (.num 0)).asNum with
  | .ok q => .ok (q / divisor)
  | .error e => .error e

/-- The calorie resolution of lines 104-112:
source calories if not `None`; else kilojoules × 0.239 if the kilojoule
field is not `None` (a non-numeric kilojoule value raises `TypeError`
at the multiplication); else the running heuristic `weight × distance`
when the sport is `Run` or `TrailRun`; else still `None`. -/
def resolveCalories (weight : ℚ) (cal : Option ℚ) (kj : PyVal)
    (sport : Option String) (dist : ℚ) : Except PyError (Option ℚ) :=
  let step1 : Except PyError (Option ℚ) :=
    if cal = none ∧ kj.get ≠ PyVal.null then
      match kj.get with
      | .num k => .ok (some (k * (239 / 1000)))
      | _ => .error .typeError
    else .ok cal
  match step1 with
  | .error e => .error e
  | .ok cal1 =>
      .ok (if cal1 = none ∧ (sport = some "Run" ∨ sport = some "TrailRun") then
        some (weight * dist)
      else cal1)

/-- The body of the per-record loop of `activities_to_dataframe`
(lines 98-126), parameterized by the configured athlete weight
(`ATHLETE_WEIGHT_KG`). PyVal evaluation order follows the source:
sport, distance, moving time, calories, start date. -/
def normalizeRecord (weight : ℚ) (a : RawActivity) : Except PyError PreRow :=
  let sport := pyOrStr a.sport_type a.type
  match numOr0 a.distance 1000 with
  | .error e => .error e
  | .ok distance_km =>
    match numOr0 a.moving_time 60 with
    | .error e => .error e
    | .ok moving_time_min =>
      match resolveCalories weight a.calories a.kilojoules sport distance_km with
      | .error e => .error e
      | .ok calories =>
          .ok { id := a.id, name := a.name, sport := sport,
                distance_km := distance_km, moving_time_min := moving_time_min,
                start_date := pyOrT a.start_date_local a.start_date,
                calories := calories }

/-! ## ISO-8601 week calendar (embedding of `Series.dt.isocalendar`) -/

/-- Days since 1970-01-01 of the civil date `(y, m, d)` (proleptic
Gregorian); `/` on `ℤ` is Euclidean division, which floors for the
positive divisors used here. -/
def daysFromCivil (y m d : ℤ) : ℤ :=
  let y' := if m ≤ 2 then y - 1 else y
  let era := y' / 400
  let yoe := y' - era * 400
  let mp := if 2 < m then m - 3 else m + 9
  let doy := (153 * mp + 2) / 5 + d - 1
  let doe := yoe * 365 + yoe / 4 - yoe / 100 + doy
  era * 146097 + doe - 719468

/-- Civil date `(year, month, day)` of a day count since 1970-01-01. -/
def civilFromDays (z : ℤ) : ℤ × ℤ × ℤ :=
  let z' := z + 719468
  let era := z' / 146097
  let doe := z' - era * 146097
  let yoe := (doe - doe / 1460 + doe / 36524 - doe / 146096) / 365
  let y := yoe + era * 400
  let doy := doe - (365 * yoe + yoe / 4 - yoe / 100)
  let mp := (5 * doy + 2) / 153
  let d := doy - (153 * mp + 2) / 5 + 1
  let m := if mp < 10 then mp + 3 else mp - 9
  (if m ≤ 2 then y + 1 else y, m, d)

/-- ISO weekday (Monday = 1 … Sunday = 7) of a day count
(1970-01-01 was a Thursday). -/
def isoWeekday (z : ℤ) : ℤ :=
  (z + 3) % 7 + 1

/-- Number of the last ISO week of year `y` (52 or 53): December 28
always lies in the last ISO week of its year. -/
def isoLastWeek (y : ℤ) : ℤ :=
  let z := daysFromCivil y 12 28
  let ord := z - daysFromCivil y 1 1 + 1
  (ord - isoWeekday z + 10) / 7

/-- ISO-8601 `(iso_year, iso_week)` of a day count since 1970-01-01:
week 1 is the Monday-start week containing the first Thursday of the year. -/
def isocalendarDays (z : ℤ) : ℤ × ℤ :=
  let y := (civilFromDays z).1
  let ord := z - daysFromCivil y 1 1 + 1
  let w := (ord - isoWeekday z + 10) / 7
  if w < 1 then (y - 1, isoLastWeek (y - 1))
  else if isoLastWeek y < w then (y + 1, 1)
  else (y, w)

/-- ISO `(iso_year, iso_week)` of an epoch timestamp in seconds. -/
def isocalendarTs (t : ℤ) : ℤ × ℤ :=
  isocalendarDays (t / 86400)

/-- Python `str.zfill(2)`. -/
def zfill2 (s : String) : String :=
  if s.length < 2 then String.mk (List.replicate (2 - s.length) '0') ++ s else s

/-- The `week_label` column (lines 138-142):
`iso_year.astype(str) + "-W" + iso_week.astype(str).zfill(2)`; for a row
with a NaT start date both ISO columns are NA and stringify to `"<NA>"`. -/
def weekLabel (iso : Option (ℤ × ℤ)) : String :=
  match iso with
  | some (y, w) => toString y ++ "-W" ++ zfill2 (toString w)
  | none => "<NA>" ++ "-W" ++ zfill2 "<NA>"

/-- One row of the finished DataFrame returned by
`activities_to_dataframe`: calories filled with 0.0, ISO columns and
week label derived from the (possibly NaT) start date. -/
structure Activity where
  id : Option ℤ
  name : Option String
  sport : Option String
  distance_km : ℚ
  moving_time_min : ℚ
  start_date : Option ℤ
  calories : ℚ
  iso : Option (ℤ × ℤ)
  week_label : String
deriving DecidableEq, Repr

/-- The DataFrame post-processing of lines 132-142 applied to one row:
`fillna(0.0)` on calories, `isocalendar()` on the start date. -/
def finalizeRow (r : PreRow) : Activity :=
  let iso := r.start_date.map isocalendarTs
  { id := r.id, name := r.name, sport := r.sport,
    distance_km := r.distance_km, moving_time_min := r.moving_time_min,
    start_date := r.start_date, calories := r.calories.getD 0,
    iso := iso, week_label := weekLabel iso }

/-- Sequencing of the per-record loop: the first raising record aborts
the whole call (the Python loop simply propagates the exception). -/
def mapE (f : α → Except ε β) : List α → Except ε (List β)
  | [] => .ok []
  | x :: xs =>
    match f x with
    | .error e => .error e
    | .ok y =>
      match mapE f xs with
      | .error e => .error e
      | .ok ys => .ok (y :: ys)

/-- Embeds `activities_to_dataframe` (lines 92-144): normalize every record,
return the empty frame unchanged when there are no rows, otherwise apply
the DataFrame post-processing to every row. -/
def activities_to_dataframe (weight : ℚ) (acts : List RawActivity) :
    Except PyError (List Activity) :=
  match mapE (normalizeRecord weight) acts with
  | .error e => .error e
  | .ok rows => .ok (if rows.isEmpty then [] else rows.map finalizeRow)

/-! ## Period statistics and pace formatting -/

/-- Python-`round` on a rational: round half to even (the float `round`
builtin), used by `format_pace` line 155. -/
def pyRound (q : ℚ) : ℤ :=
  if q - (⌊q⌋ : ℚ) < 1 / 2 then ⌊q⌋
  else if 1 / 2 < q - (⌊q⌋ : ℚ) then ⌊q⌋ + 1
  else if ⌊q⌋ % 2 = 0 then ⌊q⌋ else ⌊q⌋ + 1

/-- The `(mins, secs)` pair computed by `format_pace` for a positive
pace value (lines 154-158): truncate to minutes, round the fractional
minutes to seconds, carry `secs == 60` into the minutes. -/
def paceMinSec (q : ℚ) : ℤ × ℤ :=
  if pyRound ((q - (⌊q⌋ : ℚ)) * 60) = 60 then (⌊q⌋ + 1, 0)
  else (⌊q⌋, pyRound ((q - (⌊q⌋ : ℚ)) * 60))

/-- Embeds `format_pace` (lines 151-159); the argument is `Option ℚ` because the
caller hands it either a float or `None` (`pd.isna` is true on `None`
and on NaN, both of which are `none` here). For a positive rational the
Python `int()` truncation agrees with the floor used by `paceMinSec`. -/
def format_pace (min_per_km : Option ℚ) : String :=
  match min_per_km with
  | none => "N/A"
  | some q =>
    if q ≤ 0 then "N/A"
    else
      let p := paceMinSec q
      toString p.1 ++ ":" ++ zfill2 (toString p.2) ++ "/km"

/-- The summary dict built by `compute_period_stats` (lines 185-193). -/
structure PeriodStats where
  total_kcal : ℚ
  total_activites : ℕ
  total_heures : ℚ
  run_kcal : ℚ
  run_activites : ℕ
  run_distance_km : ℚ
  run_pace_min_per_km : Option ℚ
deriving DecidableEq, Repr

/-- Embeds `df["start_date"] >= start_limit` on one row: a NaT start date
compares false. -/
def inWindow (start_limit : ℤ) (a : Activity) : Bool :=
  match a.start_date with
  | none => false
  | some t => start_limit ≤ t

/-- Embeds `period_df[period_df["sport"] == "Run"]` (line 174). -/
def runOf (period : List Activity) : List Activity :=
  period.filter (fun a => a.sport == some "Run")

/-- The statistics computed over a non-empty period frame
(lines 170-193). -/
def mkStats (period : List Activity) : PeriodStats :=
  let run_df := runOf period
  let run_dist := (run_df.map Activity.distance_km).sum
  { total_kcal := (period.map Activity.calories).sum
    total_activites := period.length
    total_heures := (period.map Activity.moving_time_min).sum / 60
    run_kcal := (run_df.map Activity.calories).sum
    run_activites := run_df.length
    run_distance_km := run_dist
    run_pace_min_per_km :=
      if 0 < run_dist then some ((run_df.map Activity.moving_time_min).sum / run_dist)
      else none }

/-- Embeds `compute_period_stats` (lines 162-193): restrict to the rows with
`start_date >= start_limit`, return `None` on an empty subset. -/
def compute_period_stats (df : List Activity) (start_limit : ℤ) :
    Option PeriodStats :=
  let period := df.filter (inWindow start_limit)
  if period.isEmpty then none else some (mkStats period)

/-! ## Weekly aggregation -/

/-- One row of the frame returned by `compute_weekly_totals` of
`dashboard_cloud.py` (lines 196-203). -/
structure WeeklyBucket where
  iso_year : ℤ
  iso_week : ℤ
  week_label : String
  total_kcal : ℚ
deriving DecidableEq, Repr

/-- One row of the frame returned by `compute_weekly_totals` of
`dashboard.py` (lines 36-47), which additionally counts the non-null
`id` values of the group. -/
structure WeeklyBucketV1 where
  iso_year : ℤ
  iso_week : ℤ
  week_label : String
  total_kcal : ℚ
  nb_activites : ℕ
deriving DecidableEq, Repr

/-- The `(iso_year, iso_week, week_label)` group key of a row whose ISO
columns are not NA (rows with NA keys never reach `keyOf`, see
`compute_weekly_totals`). -/
def keyOf (a : Activity) : ℤ × ℤ × String :=
  match a.iso with
  | some (y, w) => (y, w, a.week_label)
  | none => (0, 0, "")

/-- Chronological bucket order used by `sort_values(["iso_year",
"iso_week"])` (stable sort by year then week). -/
def bucketLE (b1 b2 : WeeklyBucket) : Prop :=
  b1.iso_year < b2.iso_year ∨ (b1.iso_year = b2.iso_year ∧ b1.iso_week ≤ b2.iso_week)

instance : DecidableRel bucketLE := fun b1 b2 => by
  unfold bucketLE; infer_instance

/-- Same order on the `dashboard.py` buckets. -/
def bucketLE1 (b1 b2 : WeeklyBucketV1) : Prop :=
  b1.iso_year < b2.iso_year ∨ (b1.iso_year = b2.iso_year ∧ b1.iso_week ≤ b2.iso_week)

instance : DecidableRel bucketLE1 := fun b1 b2 => by
  unfold bucketLE1; infer_instance

/-- Embeds `compute_weekly_totals` of `dashboard_cloud.py` (lines 196-203):
`groupby(["iso_year", "iso_week", "week_label"]).agg(total_kcal=
("calories", "sum"))`, then sort ascending by year and week. The pandas
default `dropna=True` drops every row whose group keys are NA, i.e. the
rows with a NaT `start_date`. -/
def compute_weekly_totals (df : List Activity) : List WeeklyBucket :=
  let rows := df.filter (fun a => a.iso.isSome)
  let keys := (rows.map keyOf).dedup
  let buckets := keys.map (fun c =>
    { iso_year := c.1, iso_week := c.2.1, week_label := c.2.2,
      total_kcal := ((rows.filter (fun x => keyOf x == c)).map Activity.calories).sum
      : WeeklyBucket })
  List.insertionSort bucketLE buckets

/-- Embeds `compute_weekly_totals` of `dashboard.py` (lines 36-47): same
grouping and calorie sum, plus `nb_activites=("id", "count")` — pandas
`count` counts the non-null ids of the group. -/
def compute_weekly_totals_v1 (df : List Activity) : List WeeklyBucketV1 :=
  let rows := df.filter (fun a => a.iso.isSome)
  let keys := (rows.map keyOf).dedup
  let buckets := keys.map (fun c =>
    { iso_year := c.1, iso_week := c.2.1, week_label := c.2.2,
      total_kcal := ((rows.filter (fun x => keyOf x == c)).map Activity.calories).sum,
      nb_activites := (rows.filter (fun x => keyOf x == c)).countP (fun x => x.id.isSome)
      : WeeklyBucketV1 })
  List.insertionSort bucketLE1 buckets

/-! ## Load-risk classification (app body, lines 254-282) -/

/-- Embeds `run_dist_prev_7d` (lines 254-259): total running distance of the
rows with `start_14d <= start_date < start_7d` and sport `"Run"`; NaT
rows fail both date comparisons. -/
def run_dist_prev_7d (df : List Activity) (start_14d start_7d : ℤ) : ℚ :=
  let mask_prev := df.filter (fun a =>
    match a.start_date with
    | none => false
    | some t => decide (start_14d ≤ t) && decide (t < start_7d) && (a.sport == some "Run"))
  (mask_prev.map Activity.distance_km).sum

/-- Embeds `delta_run_pct` (lines 261-264): percentage change of running
distance, `None` when the distance of the previous window is not positive. -/
def delta_run_pct (run_dist_7d run_dist_prev : ℚ) : Option ℚ :=
  if 0 < run_dist_prev then some ((run_dist_7d - run_dist_prev) / run_dist_prev * 100)
  else none

/-- Embeds `risque_charge` (lines 267-282): the risk label derived from the
delta (the accompanying comment strings are omitted); `"N/A"` plays the
the UNKNOWN of the spec, `"ÉLEVÉ"` ELEVATED, `"MODÉRÉ"` MODERATE, `"BASSE"`
DECREASED, `"FAIBLE"` LOW. -/
def risque_charge (delta : Option ℚ) : String :=
  match delta with
  | none => "N/A"
  | some d =>
    if 30 < d then "ÉLEVÉ"
    else if 20 < d then "MODÉRÉ"
    else if d < -10 then "BASSE"
    else "FAIBLE"

/-! ## Helper lemmas -/

theorem numOr0_absent (d : ℚ) : numOr0 .absent d = .ok 0 := by
  simp [numOr0, pyOrF, PyVal.getD, PyVal.truthy, PyVal.asNum]

theorem numOr0_null (d : ℚ) : numOr0 .null d = .ok 0 := by
  simp [numOr0, pyOrF, PyVal.getD, PyVal.truthy, PyVal.asNum]

theorem numOr0_num (q d : ℚ) : numOr0 (.num q) d = .ok (q / d) := by
  by_cases h : q = 0 <;>
    simp [numOr0, pyOrF, PyVal.getD, PyVal.truthy, PyVal.asNum, h]

theorem resolveCalories_reported (weight : ℚ) (c : ℚ) (kj : PyVal)
    (sport : Option String) (dist : ℚ) :
    resolveCalories weight (some c) kj sport dist = .ok (some c) := by
  simp [resolveCalories]

theorem resolveCalories_kj (weight : ℚ) (kj : PyVal) (sport : Option String)
    (dist k : ℚ) (hk : kj.get = .num k) :
    resolveCalories weight none kj sport dist = .ok (some (k * (239 / 1000))) := by
  simp [resolveCalories, hk]

theorem resolveCalories_runFamily (weight : ℚ) (kj : PyVal) (sport : Option String)
    (dist : ℚ) (hk : kj.get = .null)
    (hs : sport = some "Run" ∨ sport = some "TrailRun") :
    resolveCalories weight none kj sport dist = .ok (some (weight * dist)) := by
  simp [resolveCalories, hk, hs]

theorem resolveCalories_default (weight : ℚ) (kj : PyVal) (sport : Option String)
    (dist : ℚ) (hk : kj.get = .null)
    (hs : ¬(sport = some "Run" ∨ sport = some "TrailRun")) :
    resolveCalories weight none kj sport dist = .ok none := by
  simp [resolveCalories, hk, hs]

theorem normalizeRecord_ok (weight : ℚ) (a : RawActivity) (qd qm : ℚ) (c : Option ℚ)
    (hd : numOr0 a.distance 1000 = .ok qd)
    (hm : numOr0 a.moving_time 60 = .ok qm)
    (hc : resolveCalories weight a.calories a.kilojoules
      (pyOrStr a.sport_type a.type) qd = .ok c) :
    normalizeRecord weight a = .ok
      { id := a.id, name := a.name, sport := pyOrStr a.sport_type a.type,
        distance_km := qd, moving_time_min := qm,
        start_date := pyOrT a.start_date_local a.start_date, calories := c } := by
  unfold normalizeRecord
  rw [hd, hm]
  simp only []
  rw [hc]

theorem sum_map_add' {κ : Type} (u v : κ → ℚ) (l : List κ) :
    (l.map (fun c => u c + v c)).sum = (l.map u).sum + (l.map v).sum := by
  induction l with
  | nil => simp
  | cons a t ih => simp [ih]; ring

theorem sum_map_ite_of_not_mem {κ : Type} [DecidableEq κ] (c₀ : κ) (v : ℚ)
    (l : List κ) (h : c₀ ∉ l) :
    (l.map (fun c => if c₀ = c then v else 0)).sum = 0 := by
  induction l with
  | nil => simp
  | cons a t ih =>
    simp only [List.mem_cons, not_or] at h
    simp [h.1, ih h.2]

theorem sum_map_ite_eq {κ : Type} [DecidableEq κ] (c₀ : κ) (v : ℚ)
    (l : List κ) (hnd : l.Nodup) (hmem : c₀ ∈ l) :
    (l.map (fun c => if c₀ = c then v else 0)).sum = v := by
  induction l with
  | nil => simp at hmem
  | cons a t ih =>
    rcases List.mem_cons.mp hmem with h | h
    · subst h
      have : c₀ ∉ t := (List.nodup_cons.mp hnd).1
      simp [sum_map_ite_of_not_mem c₀ v t this]
    · have hne : c₀ ≠ a := by
        rintro rfl; exact (List.nodup_cons.mp hnd).1 h
      simp [hne, ih (List.nodup_cons.mp hnd).2 h]

/-- Grouping by a key and summing each group loses nothing: the sum of
the per-group sums equals the total sum. -/
theorem sum_buckets_eq {α κ : Type} [DecidableEq κ] [BEq κ] [LawfulBEq κ]
    (k : α → κ) (f : α → ℚ) (l : List α) :
    (((l.map k).dedup).map
      (fun c => ((l.filter (fun x => k x == c)).map f).sum)).sum
      = (l.map f).sum := by
  induction l with
  | nil => simp
  | cons a t ih =>
    have hsplit : ∀ c : κ,
        ((List.filter (fun x => k x == c) (a :: t)).map f).sum
          = (if k a = c then f a else 0)
            + ((List.filter (fun x => k x == c) t).map f).sum := by
      intro c
      by_cases hc : k a = c
      · simp [List.filter_cons, hc, beq_iff_eq]
      · simp [List.filter_cons, hc, beq_iff_eq]
    rw [List.map_cons, List.map_cons, List.sum_cons]
    by_cases hmem : k a ∈ t.map k
    · rw [List.dedup_cons_of_mem hmem,
        List.map_congr_left (fun c _ => hsplit c), sum_map_add',
        sum_map_ite_eq (k a) (f a) _ (List.nodup_dedup _)
          (List.mem_dedup.mpr hmem), ih]
    · rw [List.dedup_cons_of_not_mem hmem, List.map_cons, List.sum_cons,
        hsplit (k a)]
      have hnil : List.filter (fun x => k x == k a) t = [] := by
        refine List.filter_eq_nil_iff.mpr (fun x hx => ?_)
        simp only [beq_iff_eq]
        intro hkx
        exact hmem (hkx ▸ List.mem_map_of_mem k hx)
      have htail :
          ((t.map k).dedup.map
            (fun c => ((List.filter (fun x => k x == c) (a :: t)).map f).sum)).sum
            = ((t.map k).dedup.map
              (fun c => ((List.filter (fun x => k x == c) t).map f).sum)).sum := by
        refine congrArg List.sum (List.map_congr_left (fun c hc => ?_))
        rw [hsplit c]
        have : k a ≠ c := by
          rintro rfl
          exact hmem (List.mem_dedup.mp hc)
        simp [this]
      rw [htail, ih, hnil]
      simp

theorem pyRound_bounds (q : ℚ) : ⌊q⌋ ≤ pyRound q ∧ pyRound q ≤ ⌊q⌋ + 1 := by
  unfold pyRound
  constructor <;> (split_ifs <;> omega)

/-- The seconds component rendered by `format_pace` is always in
`[0, 60)` once the `secs == 60` carry has been applied. -/
theorem paceMinSec_snd_bounds (q : ℚ) :
    0 ≤ (paceMinSec q).2 ∧ (paceMinSec q).2 < 60 := by
  unfold paceMinSec
  have hf0 : (0 : ℚ) ≤ q - (⌊q⌋ : ℚ) := by
    have := Int.floor_le q; linarith
  have hf1 : q - (⌊q⌋ : ℚ) < 1 := by
    have := Int.lt_floor_add_one q; linarith
  set x : ℚ := (q - (⌊q⌋ : ℚ)) * 60 with hx
  have hx0 : (0 : ℚ) ≤ x := by positivity
  have hx60 : x < 60 := by rw [hx]; nlinarith
  have hfl0 : 0 ≤ ⌊x⌋ := Int.floor_nonneg.mpr hx0
  have hfl60 : ⌊x⌋ < 60 := by
    have h1 : (⌊x⌋ : ℚ) ≤ x := Int.floor_le x
    have : (⌊x⌋ : ℚ) < 60 := lt_of_le_of_lt h1 hx60
    exact_mod_cast this
  have hb := pyRound_bounds x
  rw [hx] at hfl0 hfl60 hb ⊢
  split_ifs with h60
  · simp
  · simp only []
    omega

/-! ## Claim theorems -/

/-- Claim C1: for every raw record (whose distance and moving-time fields
normalize to numbers), the calorie value of the normalized activity row is
resolved by the first applicable rule: (1) a source-reported calorie value
is used as-is, winning over a simultaneously present kilojoule value;
(2) else a present kilojoule value gives `kJ × 0.239`; (3) else a `Run` or
`TrailRun` sport gives `body_mass_kg × distance_km`; (4) else `0.0` (after
the `fillna(0.0)` step). -/
theorem C1_calorie_resolution (weight : ℚ) (a : RawActivity) (qd qm : ℚ)
    (hd : numOr0 a.distance 1000 = .ok qd)
    (hm : numOr0 a.moving_time 60 = .ok qm) :
    (∀ c : ℚ, a.calories = some c →
      ∃ r, normalizeRecord weight a = .ok r ∧ (finalizeRow r).calories = c) ∧
    (a.calories = none → ∀ k : ℚ, a.kilojoules.get = .num k →
      ∃ r, normalizeRecord weight a = .ok r ∧
        (finalizeRow r).calories = k * (239 / 1000)) ∧
    (a.calories = none → a.kilojoules.get = .null →
      (pyOrStr a.sport_type a.type = some "Run" ∨
        pyOrStr a.sport_type a.type = some "TrailRun") →
      ∃ r, normalizeRecord weight a = .ok r ∧
        (finalizeRow r).calories = weight * qd ∧ r.distance_km = qd) ∧
    (a.calories = none → a.kilojoules.get = .null →
      ¬(pyOrStr a.sport_type a.type = some "Run" ∨
        pyOrStr a.sport_type a.type = some "TrailRun") →
      ∃ r, normalizeRecord weight a = .ok r ∧ (finalizeRow r).calories = 0) := by
  refine ⟨fun c hc => ?_, fun hc k hk => ?_, fun hc hk hs => ?_, fun hc hk hs => ?_⟩
  · exact ⟨_, normalizeRecord_ok weight a qd qm (some c)
      hd hm (hc ▸ resolveCalories_reported weight c a.kilojoules _ qd), rfl⟩
  · exact ⟨_, normalizeRecord_ok weight a qd qm (some (k * (239 / 1000)))
      hd hm (hc ▸ resolveCalories_kj weight a.kilojoules _ qd k hk), rfl⟩
  · exact ⟨_, normalizeRecord_ok weight a qd qm (some (weight * qd))
      hd hm (hc ▸ resolveCalories_runFamily weight a.kilojoules _ qd hk hs),
      rfl, rfl⟩
  · exact ⟨_, normalizeRecord_ok weight a qd qm none
      hd hm (hc ▸ resolveCalories_default weight a.kilojoules _ qd hk hs), rfl⟩

/-- Witness for C1: a record reporting `calories = 500` together with
`kilojoules = 1000` normalizes to 500 kcal (the reported value wins). -/
theorem C1_witness :
    ∃ r, normalizeRecord 89
      { calories := some 500, kilojoules := .num 1000, start_date := some 0 }
      = .ok r ∧ (finalizeRow r).calories = 500 :=
  (C1_calorie_resolution 89
    { calories := some 500, kilojoules := .num 1000, start_date := some 0 }
    0 0 (numOr0_absent 1000) (numOr0_absent 60)).1 500 rfl

/-- Counterexample to claim C2: the claim asserts that a delta of exactly
30.0 % classifies as LOW, but the second test of the code `delta_run_pct > 20`
fires at 30.0, yielding `"MODÉRÉ"` (MODERATE): with a current-window
distance of 13 km against a previous-window distance of 10 km the delta
is exactly 30 % and the label is MODERATE, not LOW (`"FAIBLE"`). -/
theorem C2_counterexample :
    delta_run_pct 13 10 = some 30 ∧
    risque_charge (delta_run_pct 13 10) = "MODÉRÉ" ∧
    risque_charge (delta_run_pct 13 10) ≠ "FAIBLE" := by
  have h : delta_run_pct 13 10 = some 30 := by norm_num [delta_run_pct]
  have h2 : risque_charge (some 30) = "MODÉRÉ" := by norm_num [risque_charge]
  refine ⟨h, h ▸ h2, ?_⟩
  rw [h, h2]
  decide

/-- Claim C2 (amended): with a previous-window distance of 0 the risk is
UNKNOWN (`"N/A"`) and the delta is absent; otherwise
`delta = (current − previous)/previous × 100` and the first matching of
the strict tests `> 30` → ELEVATED, `> 20` → MODERATE, `< −10` →
DECREASED, else LOW applies — so a delta of exactly 30.0 classifies as
MODERATE (not LOW: it fails only the first test), and exactly 20.0 or
−10.0 classify as LOW. -/
theorem C2_risk_classification (cur prev : ℚ) (hprev : 0 ≤ prev) :
    (prev = 0 → delta_run_pct cur prev = none ∧
      risque_charge (delta_run_pct cur prev) = "N/A") ∧
    (prev ≠ 0 → delta_run_pct cur prev = some ((cur - prev) / prev * 100)) ∧
    (∀ d : ℚ,
      (30 < d → risque_charge (some d) = "ÉLEVÉ") ∧
      (20 < d → d ≤ 30 → risque_charge (some d) = "MODÉRÉ") ∧
      (d < -10 → risque_charge (some d) = "BASSE") ∧
      (-10 ≤ d → d ≤ 20 → risque_charge (some d) = "FAIBLE")) ∧
    risque_charge (some 30) = "MODÉRÉ" ∧
    risque_charge (some 20) = "FAIBLE" ∧
    risque_charge (some (-10)) = "FAIBLE" := by
  refine ⟨fun h0 => ?_, fun hne => ?_, fun d => ?_,
    by norm_num [risque_charge], by norm_num [risque_charge],
    by norm_num [risque_charge]⟩
  · subst h0
    simp [delta_run_pct, risque_charge]
  · have hpos : 0 < prev := lt_of_le_of_ne hprev (Ne.symm hne)
    simp [delta_run_pct, hpos]
  · refine ⟨fun h30 => ?_, fun h20 h30 => ?_, fun hneg => ?_, fun hge hle => ?_⟩
    · simp [risque_charge, h30]
    · simp [risque_charge, h20, not_lt.mpr h30]
    · have h1 : ¬(30 : ℚ) < d := by linarith
      have h2 : ¬(20 : ℚ) < d := by linarith
      simp [risque_charge, h1, h2, hneg]
    · have h1 : ¬(30 : ℚ) < d := by linarith
      have h2 : ¬(20 : ℚ) < d := by linarith
      have h3 : ¬d < (-10 : ℚ) := not_lt.mpr hge
      simp [risque_charge, h1, h2, h3]

/-- Witness for C2: at `(current, previous) = (10.5, 10)` the delta is
exactly 5 % and the risk label is `"FAIBLE"` (LOW). -/
theorem C2_witness :
    delta_run_pct (21 / 2) 10 = some ((21 / 2 - 10) / 10 * 100) ∧
    risque_charge (some 5) = "FAIBLE" :=
  ⟨(C2_risk_classification (21 / 2) 10 (by norm_num)).2.1 (by norm_num),
    ((C2_risk_classification (21 / 2) 10 (by norm_num)).2.2.1 5).2.2.2
      (by norm_num) (by norm_num)⟩

theorem numOr0_str (s : String) (hs : s ≠ "") (d : ℚ) :
    numOr0 (.str s) d = .error .typeError := by
  simp [numOr0, pyOrF, PyVal.getD, PyVal.truthy, PyVal.asNum, hs]

theorem normalizeRecord_dist_error (weight : ℚ) (a : RawActivity) (e : PyError)
    (h : numOr0 a.distance 1000 = .error e) :
    normalizeRecord weight a = .error e := by
  unfold normalizeRecord
  rw [h]

theorem activities_to_dataframe_singleton (weight : ℚ) (a : RawActivity)
    (r : PreRow) (h : normalizeRecord weight a = .ok r) :
    activities_to_dataframe weight [a] = .ok [finalizeRow r] := by
  simp [activities_to_dataframe, mapE, h]

theorem activities_to_dataframe_singleton_error (weight : ℚ) (a : RawActivity)
    (e : PyError) (h : normalizeRecord weight a = .error e) :
    activities_to_dataframe weight [a] = .error e := by
  simp [activities_to_dataframe, mapE, h]

/-- Counterexample to claim C3: a record with neither a local nor a UTC
start timestamp does not make normalization fail — there is no
`MissingTimestampError` anywhere in the code.  The record flows through
`activities_to_dataframe` successfully, with a null (`NaT`) start date
and NA ISO columns. -/
theorem C3_counterexample :
    activities_to_dataframe 89 [{ calories := some 100 }] =
      .ok [{ id := none, name := none, sport := none, distance_km := 0,
             moving_time_min := 0, start_date := none, calories := 100,
             iso := none, week_label := "<NA>-W<NA>" }] := by
  have h : normalizeRecord 89 { calories := some 100 } = .ok
      { id := none, name := none, sport := pyOrStr none none, distance_km := 0,
        moving_time_min := 0, start_date := pyOrT none none,
        calories := some 100 } :=
    normalizeRecord_ok 89 _ 0 0 (some 100) (numOr0_absent 1000)
      (numOr0_absent 60) (resolveCalories_reported 89 100 _ _ 0)
  rw [activities_to_dataframe_singleton 89 _ _ h]
  rfl

/-- Claim C3 (amended): a record with neither timestamp normalizes
without error, its `start_date` being null (`NaT`); with either timestamp
present, `start_date` is the local one if present, else the UTC one. -/
theorem C3_start_date (weight : ℚ) (a : RawActivity) (qd qm : ℚ) (c : Option ℚ)
    (hd : numOr0 a.distance 1000 = .ok qd)
    (hm : numOr0 a.moving_time 60 = .ok qm)
    (hc : resolveCalories weight a.calories a.kilojoules
      (pyOrStr a.sport_type a.type) qd = .ok c) :
    ∃ r, normalizeRecord weight a = .ok r ∧
      r.start_date = pyOrT a.start_date_local a.start_date ∧
      (∀ t, a.start_date_local = some t → r.start_date = some t) ∧
      (a.start_date_local = none → r.start_date = a.start_date) ∧
      (a.start_date_local = none → a.start_date = none → r.start_date = none) := by
  refine ⟨_, normalizeRecord_ok weight a qd qm c hd hm hc, rfl, ?_, ?_, ?_⟩
  · intro t ht
    simp [pyOrT, ht]
  · intro h
    simp [pyOrT, h]
  · intro h1 h2
    simp [pyOrT, h1, h2]

/-- Witness for C3: a record with both timestamps present takes the
local one. -/
theorem C3_witness :
    ∃ r, normalizeRecord 89
      { calories := some 1, start_date_local := some 10, start_date := some 20 }
      = .ok r ∧ r.start_date = some 10 := by
  obtain ⟨r, hr, -, hloc, -, -⟩ := C3_start_date 89
    { calories := some 1, start_date_local := some 10, start_date := some 20 }
    0 0 (some 1) (numOr0_absent 1000) (numOr0_absent 60)
    (resolveCalories_reported 89 1 _ _ 0)
  exact ⟨r, hr, hloc 10 rfl⟩

/-- Counterexample to claim C4: a record with both sport fields absent
normalizes to a null sport, not to the string `"Unknown"` — the code has
no `"Unknown"` default, so the claimed non-null-sport invariant fails. -/
theorem C4_counterexample :
    ∃ r, normalizeRecord 89 { calories := some 10, start_date := some 0 }
      = .ok r ∧ r.sport = none ∧ r.sport ≠ some "Unknown" := by
  refine ⟨_, normalizeRecord_ok 89 _ 0 0 (some 10) (numOr0_absent 1000)
    (numOr0_absent 60) (resolveCalories_reported 89 10 _ _ 0), rfl,
    by simp [pyOrStr, pyTruthyS]⟩

/-- Claim C4 (amended): the normalized sport is the specific-sport field
when truthy (present and non-empty), else the generic-type field; when
both fields are missing the sport is null — there is no `"Unknown"`
default, so a normalized activity may have a null sport. -/
theorem C4_sport (weight : ℚ) (a : RawActivity) (qd qm : ℚ) (c : Option ℚ)
    (hd : numOr0 a.distance 1000 = .ok qd)
    (hm : numOr0 a.moving_time 60 = .ok qm)
    (hc : resolveCalories weight a.calories a.kilojoules
      (pyOrStr a.sport_type a.type) qd = .ok c) :
    ∃ r, normalizeRecord weight a = .ok r ∧
      r.sport = pyOrStr a.sport_type a.type ∧
      (pyTruthyS a.sport_type = true → r.sport = a.sport_type) ∧
      (a.sport_type = none → r.sport = a.type) ∧
      (a.sport_type = none → a.type = none → r.sport = none) := by
  refine ⟨_, normalizeRecord_ok weight a qd qm c hd hm hc, rfl, ?_, ?_, ?_⟩
  · intro ht
    simp [pyOrStr, ht]
  · intro h
    simp [pyOrStr, pyTruthyS, h]
  · intro h1 h2
    simp [pyOrStr, pyTruthyS, h1, h2]

/-- Witness for C4: `sport_type = "TrailRun"` beats `type = "Run"`. -/
theorem C4_witness :
    ∃ r, normalizeRecord 89
      { sport_type := some "TrailRun", type := some "Run", calories := some 1 }
      = .ok r ∧ r.sport = some "TrailRun" := by
  obtain ⟨r, hr, -, hspec, -, -⟩ := C4_sport 89
    { sport_type := some "TrailRun", type := some "Run", calories := some 1 }
    0 0 (some 1) (numOr0_absent 1000) (numOr0_absent 60)
    (resolveCalories_reported 89 1 _ _ 0)
  exact ⟨r, hr, hspec rfl⟩

/-- Claim C5: the period-stats calculator computes over exactly the
subset with `start_date >= start_limit` (inclusive of the boundary), and
returns `none` — never a zero-filled stats object — exactly when that
subset is empty; it is a pure function of its inputs, so re-running with
identical inputs yields identical output. -/
theorem C5_period_stats (df : List Activity) (limit : ℤ) :
    (compute_period_stats df limit = none ↔ df.filter (inWindow limit) = []) ∧
    (df.filter (inWindow limit) ≠ [] →
      compute_period_stats df limit
        = some (mkStats (df.filter (inWindow limit)))) ∧
    (∀ a : Activity, a ∈ df → a.start_date = some limit →
      a ∈ df.filter (inWindow limit)) ∧
    compute_period_stats df limit = compute_period_stats df limit := by
  refine ⟨?_, fun hne => ?_, fun a ha hb => ?_, rfl⟩
  · simp only [compute_period_stats]
    split_ifs with h
    · simpa using List.isEmpty_iff.mp h
    · exact ⟨fun h1 => h1.elim,
        fun hc => absurd (List.isEmpty_iff.mpr hc) h⟩
  · simp only [compute_period_stats]
    rw [if_neg (fun h => hne (List.isEmpty_iff.mp h))]
  · rw [List.mem_filter]
    exact ⟨ha, by simp [inWindow, hb]⟩

/-- Witness for C5: an activity dated exactly at the window boundary is
counted (inclusive `>=`), and the stats of the singleton frame are
returned. -/
theorem C5_witness :
    ({ id := none, name := none, sport := some "Run", distance_km := 5,
       moving_time_min := 30, start_date := some 5, calories := 100,
       iso := some (1970, 1), week_label := "1970-W01" } : Activity)
      ∈ ([{ id := none, name := none, sport := some "Run", distance_km := 5,
            moving_time_min := 30, start_date := some 5, calories := 100,
            iso := some (1970, 1), week_label := "1970-W01" }] : List Activity).filter
          (inWindow 5) :=
  (C5_period_stats _ 5).2.2.1 _ (List.mem_singleton.mpr rfl) rfl

theorem format_pace_of_pos (q : ℚ) (h : ¬q ≤ 0) :
    format_pace (some q)
      = toString (paceMinSec q).1 ++ ":" ++ zfill2 (toString (paceMinSec q).2)
        ++ "/km" := by
  simp [format_pace, h]

theorem paceMinSec_carry_example : paceMinSec (5999 / 1000) = (6, 0) := by
  have h1 : ⌊(5999 : ℚ) / 1000⌋ = 5 := by
    rw [Int.floor_eq_iff]
    norm_num
  have hx : ((5999 : ℚ) / 1000 - ((5 : ℤ) : ℚ)) * 60 = 2997 / 50 := by
    push_cast
    norm_num
  have h3 : ⌊(2997 : ℚ) / 50⌋ = 59 := by
    rw [Int.floor_eq_iff]
    norm_num
  have h2 : pyRound (((5999 : ℚ) / 1000 - ((5 : ℤ) : ℚ)) * 60) = 60 := by
    rw [hx]
    unfold pyRound
    rw [h3]
    norm_num
  unfold paceMinSec
  rw [h1, h2]
  norm_num

/-- Claim C6: the run pace of a period is total running moving minutes
divided by total running distance, computed only when the running
distance is positive; formatting carries seconds correctly (5.999 min/km
renders as `"6:00/km"`, and the rendered seconds always lie in
`[0, 60)`), and a non-positive or NaN/None pace renders as `"N/A"`. -/
theorem C6_run_pace (df : List Activity) (limit : ℤ) (s : PeriodStats)
    (hs : compute_period_stats df limit = some s) :
    (s.run_distance_km
      = ((runOf (df.filter (inWindow limit))).map Activity.distance_km).sum) ∧
    (s.run_pace_min_per_km = if 0 < s.run_distance_km then
        some (((runOf (df.filter (inWindow limit))).map
          Activity.moving_time_min).sum / s.run_distance_km)
      else none) ∧
    format_pace (some (5999 / 1000)) = "6:00/km" ∧
    format_pace none = "N/A" ∧
    (∀ q : ℚ, q ≤ 0 → format_pace (some q) = "N/A") ∧
    (∀ q : ℚ, 0 ≤ (paceMinSec q).2 ∧ (paceMinSec q).2 < 60) := by
  have hmk : s = mkStats (df.filter (inWindow limit)) := by
    simp only [compute_period_stats] at hs
    split_ifs at hs with h
    exact (Option.some_injective _ hs).symm
  subst hmk
  refine ⟨rfl, rfl, ?_, rfl, fun q hq => by simp [format_pace, hq], paceMinSec_snd_bounds⟩
  rw [format_pace_of_pos _ (by norm_num), paceMinSec_carry_example]
  rfl

/-- Witness for C6: over a singleton frame holding one 5 km / 30 min run,
the period stats report a pace of 6 min/km. -/
theorem C6_witness :
    ∃ s : PeriodStats, compute_period_stats
      [{ id := none, name := none, sport := some "Run", distance_km := 5,
         moving_time_min := 30, start_date := some 5, calories := 100,
         iso := some (1970, 1), week_label := "1970-W01" }] 0 = some s ∧
      s.run_distance_km = 5 ∧ s.run_pace_min_per_km = some 6 := by
  have hcomp : compute_period_stats
      [{ id := none, name := none, sport := some "Run", distance_km := 5,
         moving_time_min := 30, start_date := some 5, calories := 100,
         iso := some (1970, 1), week_label := "1970-W01" }] 0
      = some (mkStats
        [{ id := none, name := none, sport := some "Run", distance_km := 5,
           moving_time_min := 30, start_date := some 5, calories := 100,
           iso := some (1970, 1), week_label := "1970-W01" }]) := by
    norm_num [compute_period_stats, inWindow, List.filter]
  obtain ⟨hdist, hpace, -⟩ := C6_run_pace _ 0 _ hcomp
  refine ⟨_, hcomp, ?_, ?_⟩
  · rw [hdist]
    norm_num [runOf, List.filter, inWindow]
  · rw [hpace]
    have h5 : (mkStats
        [{ id := none, name := none, sport := some "Run", distance_km := 5,
           moving_time_min := 30, start_date := some 5, calories := 100,
           iso := some (1970, 1), week_label := "1970-W01" }]).run_distance_km
        = 5 := by
      norm_num [mkStats, runOf, List.filter, inWindow]
    rw [h5]
    norm_num [runOf, List.filter, inWindow]

/-- Counterexample to claim C8: a record whose `distance` field holds the
non-numeric string `"abc"` is not treated as absent — the expression
`(a.get("distance", 0) or 0) / 1000.0` raises a `TypeError`, so
normalization does crash on such a record. -/
theorem C8_counterexample :
    activities_to_dataframe 89 [{ distance := .str "abc", start_date := some 0 }]
      = .error .typeError :=
  activities_to_dataframe_singleton_error 89 _ _
    (normalizeRecord_dist_error 89 _ _ (numOr0_str "abc" (by decide) 1000))

/-- Claim C8 (amended): a missing (absent) or null `distance` /
`moving_time` field defaults to 0 and never crashes normalization; a
falsy value (`0`, `""`) likewise yields 0; but a present truthy
non-numeric string raises a `TypeError` instead of being treated as
absent. -/
theorem C8_malformed_fields (weight : ℚ) (a : RawActivity) (c : Option ℚ)
    (hdist : a.distance = .absent ∨ a.distance = .null)
    (hmov : a.moving_time = .absent ∨ a.moving_time = .null)
    (hc : resolveCalories weight a.calories a.kilojoules
      (pyOrStr a.sport_type a.type) 0 = .ok c) :
    (∃ r, normalizeRecord weight a = .ok r ∧
      r.distance_km = 0 ∧ r.moving_time_min = 0) ∧
    (∀ d : ℚ, numOr0 (.str "") d = .ok 0) ∧
    (∀ s : String, s ≠ "" → ∀ d : ℚ, numOr0 (.str s) d = .error .typeError) := by
  refine ⟨?_, ?_, fun s hs d => numOr0_str s hs d⟩
  · have hd : numOr0 a.distance 1000 = .ok 0 := by
      rcases hdist with h | h <;> rw [h]
      · exact numOr0_absent 1000
      · exact numOr0_null 1000
    have hm : numOr0 a.moving_time 60 = .ok 0 := by
      rcases hmov with h | h <;> rw [h]
      · exact numOr0_absent 60
      · exact numOr0_null 60
    exact ⟨_, normalizeRecord_ok weight a 0 0 c hd hm hc, rfl, rfl⟩
  · intro d
    simp [numOr0, pyOrF, PyVal.getD, PyVal.truthy, PyVal.asNum]

/-- Witness for C8: a record with a null distance and an absent moving
time normalizes with both values defaulted to 0. -/
theorem C8_witness :
    ∃ r, normalizeRecord 89
      { distance := .null, calories := some 7, start_date := some 0 }
      = .ok r ∧ r.distance_km = 0 ∧ r.moving_time_min = 0 :=
  (C8_malformed_fields 89
    { distance := .null, calories := some 7, start_date := some 0 }
    (some 7) (Or.inr rfl) (Or.inl rfl)
    (resolveCalories_reported 89 7 _ _ 0)).1

/-- Counterexample to claim C7: an activity with no usable timestamp (a
collection the normalizer really produces, see the first conjunct) has NA
ISO group keys, and pandas `groupby` drops it (`dropna=True` default):
its 100 kcal appear in the activity total but in no weekly bucket, so
the aggregation invariant fails for this collection. -/
theorem C7_counterexample :
    activities_to_dataframe 89 [{ calories := some 100 }]
      = .ok [{ id := none, name := none, sport := none, distance_km := 0,
               moving_time_min := 0, start_date := none, calories := 100,
               iso := none, week_label := "<NA>-W<NA>" }] ∧
    compute_weekly_totals
      [{ id := none, name := none, sport := none, distance_km := 0,
         moving_time_min := 0, start_date := none, calories := 100,
         iso := none, week_label := "<NA>-W<NA>" }] = [] ∧
    ((compute_weekly_totals
      [{ id := none, name := none, sport := none, distance_km := 0,
         moving_time_min := 0, start_date := none, calories := 100,
         iso := none, week_label := "<NA>-W<NA>" }]).map
        WeeklyBucket.total_kcal).sum
      ≠ (([{ id := none, name := none, sport := none, distance_km := 0,
             moving_time_min := 0, start_date := none, calories := 100,
             iso := none, week_label := "<NA>-W<NA>" }] : List Activity).map
          Activity.calories).sum := by
  refine ⟨?_, ?_, ?_⟩
  · have h : normalizeRecord 89 { calories := some 100 } = .ok
        { id := none, name := none, sport := pyOrStr none none,
          distance_km := 0, moving_time_min := 0, start_date := pyOrT none none,
          calories := some 100 } :=
      normalizeRecord_ok 89 _ 0 0 (some 100) (numOr0_absent 1000)
        (numOr0_absent 60) (resolveCalories_reported 89 100 _ _ 0)
    rw [activities_to_dataframe_singleton 89 _ _ h]
    rfl
  · rfl
  · norm_num [compute_weekly_totals, List.filter, List.insertionSort]

/-- Claim C7 (amended): for every collection in which each activity has
a non-null start date (so non-NA ISO keys), the sum of `total_kcal` over
all weekly buckets equals the sum of calories over all activities — in
both aggregator variants — and the empty collection yields an empty
bucket set; but an activity with NA ISO keys is dropped by the grouping,
so the invariant does not extend to collections with NaT rows. -/
theorem C7_weekly_totals (df : List Activity)
    (h : ∀ a ∈ df, a.iso.isSome = true) :
    ((compute_weekly_totals df).map WeeklyBucket.total_kcal).sum
      = (df.map Activity.calories).sum ∧
    ((compute_weekly_totals_v1 df).map WeeklyBucketV1.total_kcal).sum
      = (df.map Activity.calories).sum ∧
    compute_weekly_totals [] = [] ∧
    compute_weekly_totals_v1 [] = [] := by
  have hrows : df.filter (fun a => a.iso.isSome) = df :=
    List.filter_eq_self.mpr h
  refine ⟨?_, ?_, rfl, rfl⟩
  · simp only [compute_weekly_totals]
    rw [hrows,
      (List.Perm.map WeeklyBucket.total_kcal
        (List.perm_insertionSort bucketLE _)).sum_eq,
      List.map_map]
    simp only [Function.comp_def]
    exact sum_buckets_eq keyOf Activity.calories df
  · simp only [compute_weekly_totals_v1]
    rw [hrows,
      (List.Perm.map WeeklyBucketV1.total_kcal
        (List.perm_insertionSort bucketLE1 _)).sum_eq,
      List.map_map]
    simp only [Function.comp_def]
    exact sum_buckets_eq keyOf Activity.calories df

/-- Witness for C7: a concrete two-week collection whose bucket totals
sum to the calorie total of the collection. -/
theorem C7_witness :
    ((compute_weekly_totals
      [{ id := some 1, name := none, sport := some "Run", distance_km := 5,
         moving_time_min := 30, start_date := some 0, calories := 100,
         iso := some (1970, 1), week_label := "1970-W01" },
       { id := some 2, name := none, sport := some "Ride", distance_km := 20,
         moving_time_min := 60, start_date := some 604800, calories := 250,
         iso := some (1970, 2), week_label := "1970-W02" }]).map
        WeeklyBucket.total_kcal).sum
      = (([{ id := some 1, name := none, sport := some "Run", distance_km := 5,
             moving_time_min := 30, start_date := some 0, calories := 100,
             iso := some (1970, 1), week_label := "1970-W01" },
           { id := some 2, name := none, sport := some "Ride", distance_km := 20,
             moving_time_min := 60, start_date := some 604800, calories := 250,
             iso := some (1970, 2), week_label := "1970-W02" }] : List Activity).map
          Activity.calories).sum :=
  (C7_weekly_totals _ (by decide)).1

/-- Day count of the first Thursday of January of year `y`. -/
def firstThursday (y : ℤ) : ℤ :=
  daysFromCivil y 1 1 + (4 - isoWeekday (daysFromCivil y 1 1)) % 7

/-- Claim C9: the ISO columns are derived from `start_date` through the
ISO-8601 week calendar: the DataFrame step applies `isocalendarTs` to
every non-null start date; the calendar is Monday-start (over the days
around the 2023 boundary, the ISO week changes exactly when the ISO
weekday resets to Monday) and week 1 of every year 1970–2100 contains
the first Thursday of that year; in particular 2023-01-01 resolves to
`(2022, 52)`, not `(2023, 1)`. -/
theorem C9_iso_calendar :
    (∀ (r : PreRow) (t : ℤ), r.start_date = some t →
      (finalizeRow r).iso = some (isocalendarTs t)) ∧
    isocalendarTs (daysFromCivil 2023 1 1 * 86400) = (2022, 52) ∧
    ((2022, 52) : ℤ × ℤ) ≠ ((2023, 1) : ℤ × ℤ) ∧
    (∀ y ∈ Finset.Icc (1970 : ℤ) 2100,
      isoWeekday (firstThursday y) = 4 ∧
      isocalendarDays (firstThursday y) = (y, 1)) ∧
    (∀ z ∈ Finset.Icc (19300 : ℤ) 19400,
      (isoWeekday (z + 1) = 1 ∧ isocalendarDays (z + 1) ≠ isocalendarDays z) ∨
      (isoWeekday (z + 1) ≠ 1 ∧ isocalendarDays (z + 1) = isocalendarDays z)) := by
  refine ⟨fun r t ht => ?_, by decide, by decide, ?_, ?_⟩
  · simp [finalizeRow, ht]
  · set_option maxRecDepth 10000 in decide
  · set_option maxRecDepth 10000 in decide

/-- Witness for C9: the `finalizeRow` step stamps the row dated
2023-01-01 00:00 with ISO `(2022, 52)`, and the first Thursday of 2026 is in
ISO week 1 of 2026. -/
theorem C9_witness :
    (finalizeRow { id := none, name := none, sport := some "Run",
                   distance_km := 5, moving_time_min := 30,
                   start_date := some (daysFromCivil 2023 1 1 * 86400),
                   calories := some 100 }).iso = some (2022, 52) ∧
    isocalendarDays (firstThursday 2026) = (2026, 1) := by
  refine ⟨?_, (C9_iso_calendar.2.2.2.1 2026 (by decide)).2⟩
  rw [C9_iso_calendar.1 _ (daysFromCivil 2023 1 1 * 86400) rfl,
    C9_iso_calendar.2.1]

/-- Claim C10: the running sub-summary of the period stats and the
previous-window distance of the risk classification count only the
activities whose sport is exactly `"Run"`: prepending a `TrailRun`
activity changes neither the run subset of any window nor the
previous-window running distance, even though a `TrailRun` record does
receive the running calorie heuristic during normalization. -/
theorem C10_trailrun_excluded (df : List Activity) (limit : ℤ) (a : Activity)
    (ha : a.sport = some "TrailRun") :
    runOf ((a :: df).filter (inWindow limit))
      = runOf (df.filter (inWindow limit)) ∧
    (∀ s14 s7 : ℤ, run_dist_prev_7d (a :: df) s14 s7
      = run_dist_prev_7d df s14 s7) ∧
    (∀ s : PeriodStats, compute_period_stats df limit = some s →
      s.run_kcal
        = ((runOf (df.filter (inWindow limit))).map Activity.calories).sum ∧
      s.run_activites = (runOf (df.filter (inWindow limit))).length ∧
      s.run_distance_km
        = ((runOf (df.filter (inWindow limit))).map Activity.distance_km).sum) ∧
    (∀ (weight qd qm : ℚ) (raw : RawActivity), raw.calories = none →
      raw.kilojoules.get = .null →
      pyOrStr raw.sport_type raw.type = some "TrailRun" →
      numOr0 raw.distance 1000 = .ok qd →
      numOr0 raw.moving_time 60 = .ok qm →
      ∃ r, normalizeRecord weight raw = .ok r ∧
        r.calories = some (weight * qd) ∧ r.sport = some "TrailRun") := by
  refine ⟨?_, fun s14 s7 => ?_, fun s hs => ?_, ?_⟩
  · by_cases hw : inWindow limit a
    · simp [List.filter_cons, hw, runOf, ha]
    · simp [List.filter_cons, hw, runOf]
  · cases hsd : a.start_date with
    | none => simp [run_dist_prev_7d, List.filter_cons, hsd]
    | some t => simp [run_dist_prev_7d, List.filter_cons, hsd, ha]
  · have hmk : s = mkStats (df.filter (inWindow limit)) := by
      simp only [compute_period_stats] at hs
      split_ifs at hs with h
      exact (Option.some_injective _ hs).symm
    subst hmk
    exact ⟨rfl, rfl, rfl⟩
  · intro weight qd qm raw hcal hkj hsport hd hm
    refine ⟨_, normalizeRecord_ok weight raw qd qm (some (weight * qd)) hd hm
      (hcal ▸ resolveCalories_runFamily weight raw.kilojoules _ qd hkj
        (Or.inr hsport)), rfl, hsport⟩

/-- Witness for C10: prepending a concrete TrailRun activity leaves the
run subset of a one-run window unchanged, and a TrailRun record with no
energy data gets the heuristic `weight × distance` calories. -/
theorem C10_witness :
    runOf (([{ id := none, name := none, sport := some "TrailRun",
               distance_km := 8, moving_time_min := 50, start_date := some 3,
               calories := 700, iso := some (1970, 1),
               week_label := "1970-W01" },
             { id := none, name := none, sport := some "Run",
               distance_km := 5, moving_time_min := 30, start_date := some 5,
               calories := 100, iso := some (1970, 1),
               week_label := "1970-W01" }] :
          List Activity).filter (inWindow 0))
      = runOf (([{ id := none, name := none, sport := some "Run",
                   distance_km := 5, moving_time_min := 30,
                   start_date := some 5, calories := 100,
                   iso := some (1970, 1),
                   week_label := "1970-W01" }] :
          List Activity).filter (inWindow 0)) ∧
    (∃ r, normalizeRecord 80
      { sport_type := some "TrailRun", distance := .num 10000 } = .ok r ∧
      r.calories = some (80 * 10) ∧ r.sport = some "TrailRun") := by
  constructor
  · exact (C10_trailrun_excluded _ 0 _ rfl).1
  · have h10 : numOr0 (PyVal.num 10000) 1000 = .ok 10 := by
      rw [numOr0_num]
      norm_num
    exact (C10_trailrun_excluded [] 0
      { id := none, name := none, sport := some "TrailRun", distance_km := 8,
        moving_time_min := 50, start_date := some 3, calories := 700,
        iso := some (1970, 1), week_label := "1970-W01" } rfl).2.2.2
      80 10 0 { sport_type := some "TrailRun", distance := .num 10000 }
      rfl rfl rfl h10 (numOr0_absent 60)
